import Mathlib

/-!
Shallow embedding of the node-speex-resampler core (src/app/index.js,
float32 build): the `SpeexResampler` engine and the
`SpeexResamplerTransform` streaming adapter, stated over an abstract model
of the consumed speex_wasm native primitive.

Modelling conventions:
* a JS `Buffer` is a `List Nat` of bytes;
* JS numbers that the code stores are modelled by `Nat` for the channel
  count and chunk lengths and by `Int` for the rates, the quality and the
  scratch-size fields (which start at `-1`);
* the native wasm module is a record of the two calls the engine makes
  (`_speex_resampler_init` producing an error code, and
  `_speex_resampler_process_interleaved_float` producing an error code, a
  written-samples count, the evolved filter state and the bytes it wrote
  into the output scratch region); raw pointers, `_malloc`/`_free` and the
  heap addresses are memory layout and are not modelled, but the sizes the
  code tracks (`_inBufferSize`, `_outBufferSize`) and the bytes the native
  call writes are;
* `throw` is modelled by `Except.error`; the mutations performed before a
  throw are kept in the returned state, exactly as in JS.
-/

namespace Speex

/-- A JS `Buffer`: a list of bytes. -/
abbrev Buffer := List Nat

/-- `Float32Array.BYTES_PER_ELEMENT`: the sample byte width of the float32
engine. -/
def floatWidth : Nat := 4

/-- `Uint16Array.BYTES_PER_ELEMENT`: the modulus unit the streaming adapter
aligns to (`this.channels * Uint16Array.BYTES_PER_ELEMENT` in
`_transform`). -/
def uint16Width : Nat := 2

/-- The errors `processChunk` can throw, by throw site:
`notReady` is the "You need to wait for SpeexResampler.initPromise" throw,
`invalidInput` the "Chunk length should be a multiple of channels * 2
bytes" throw, `initError` the strerror throw after
`_speex_resampler_init`, and `processingError` the strerror throw after
`_speex_resampler_process_interleaved_float`. -/
inductive SpeexError where
  | notReady : SpeexError
  | invalidInput : SpeexError
  | initError (code : Int) : SpeexError
  | processingError (code : Int) : SpeexError
deriving Repr, DecidableEq

/-- Abstract model of the consumed speex_wasm primitive (the capability the
engine drives; its implementation is external to the repository). -/
structure NativeBackend where
  /-- Error code `_speex_resampler_init` reports through `errPtr` for a
  given (channels, inRate, outRate, quality); `0` means success. -/
  initCode : Nat → Int → Int → Int → Int
  /-- `_speex_resampler_process_interleaved_float`: from the native filter
  state, the input bytes, the per-channel input sample count and the
  per-channel output capacity, produce the error code, the written
  samples-per-channel count reported back through `outLengthPtr`, the new
  filter state and the contents of the output scratch region (byte offset
  from `_outBufferPtr` to byte value). -/
  processFloat : Nat → Buffer → Nat → Nat → Int × Nat × Nat × (Nat → Nat)

/-- State of a `SpeexResampler` instance: the constructor parameters plus
the lazily-created native resampler (`_resamplerPtr`, carrying the abstract
native filter state) and the two scratch sizes, which start at `-1`. -/
structure SpeexResampler where
  channels : Nat
  inRate : Int
  outRate : Int
  quality : Int
  _resamplerPtr : Option Nat
  _inBufferSize : Int
  _outBufferSize : Int
deriving Repr, DecidableEq

/-- The `SpeexResampler` constructor: stores the four parameters unchecked
and initialises every pointer/size field to its sentinel. (In the source
`quality` defaults to `7` at the call site.) -/
def SpeexResampler.create (channels : Nat) (inRate outRate quality : Int) :
    SpeexResampler :=
  { channels := channels
    inRate := inRate
    outRate := outRate
    quality := quality
    _resamplerPtr := none
    _inBufferSize := -1
    _outBufferSize := -1 }

/-- Result of one `processChunk` call: the returned buffer or thrown error,
the instance state after the call, and a trace of the native calls made
(`initCalled` records whether `_speex_resampler_init` ran; `processArgs`
records the (input samples per channel, output capacity per channel) pair
handed to the native process call; `written` records the count the native
call reported back on success). -/
structure ProcessResult where
  result : Except SpeexError Buffer
  state : SpeexResampler
  initCalled : Bool
  processArgs : Option (Nat × Nat)
  written : Option Nat
deriving Repr

/-- The input-scratch grow step of `processChunk`: reallocate (tracked by
its size field only) exactly when the current size is below
`chunk.length`. -/
def growIn (st : SpeexResampler) (len : Nat) : SpeexResampler :=
  if st._inBufferSize < (len : Int) then { st with _inBufferSize := (len : Int) }
  else st

/-- `Math.ceil (a / b)` on integers (exact JS semantics for `b ≠ 0`; the
code never reaches this with `b = 0` under a valid configuration, and the
value `0` there is junk). -/
def jsCeilDiv (a b : Int) : Int :=
  if b = 0 then 0 else -(Int.fdiv (-a) b)

/-- `outBufferLengthTarget = Math.ceil(chunk.length * this.outRate /
this.inRate)`. -/
def outTarget (st : SpeexResampler) (len : Nat) : Int :=
  jsCeilDiv ((len : Int) * st.outRate) st.inRate

/-- The output-scratch grow step of `processChunk`: reallocate exactly when
the current size is below the target. -/
def growOut (st : SpeexResampler) (len : Nat) : SpeexResampler :=
  if st._outBufferSize < outTarget st len then
    { st with _outBufferSize := outTarget st len }
  else st

/-- The tail of `processChunk` after the lazy-init block: grow both scratch
buffers, hand the chunk to the native float process call, and either
rethrow its error code or slice the written bytes out of the output
scratch region into a fresh buffer.  Per-channel counts are computed as in
the source (`chunk.length / this.channels / Float32Array.BYTES_PER_ELEMENT`
and `this._outBufferSize / this.channels / Float32Array.BYTES_PER_ELEMENT`,
the latter truncated by `setValue 'i32'`; `Int.toNat` agrees with that
truncation on every reachable size, which is `-1` or a previously stored
nonnegative target). -/
def SpeexResampler.runNative (m : NativeBackend) (st : SpeexResampler)
    (chunk : Buffer) (didInit : Bool) : ProcessResult :=
  let st1 := growIn st chunk.length
  let st2 := growOut st1 chunk.length
  let fs := st2._resamplerPtr.getD 0
  let inSamples := chunk.length / st2.channels / floatWidth
  let outCap := st2._outBufferSize.toNat / st2.channels / floatWidth
  let p := m.processFloat fs chunk inSamples outCap
  let err := p.1
  let written := p.2.1
  let fs2 := p.2.2.1
  let outBytes := p.2.2.2
  if err ≠ 0 then
    { result := .error (.processingError err)
      state := { st2 with _resamplerPtr := some fs2 }
      initCalled := didInit
      processArgs := some (inSamples, outCap)
      written := none }
  else
    { result := .ok ((List.range (written * st2.channels * floatWidth)).map outBytes)
      state := { st2 with _resamplerPtr := some fs2 }
      initCalled := didInit
      processArgs := some (inSamples, outCap)
      written := some written }

/-- `SpeexResampler.processChunk`, float32 build.  `mod` is the module-level
`speexModule` binding (`none` until the wasm module promise resolves).  In
order, as in the source: the not-ready throw; the alignment throw (the JS
test `chunk.length % (this.channels * Float32Array.BYTES_PER_ELEMENT) !== 0`
throws for every length when the modulus is `0`, since `x % 0` is `NaN`);
the lazy native init; then the scratch management and the native call. -/
def SpeexResampler.processChunk (mod : Option NativeBackend)
    (st : SpeexResampler) (chunk : Buffer) : ProcessResult :=
  match mod with
  | none =>
    { result := .error .notReady, state := st
      initCalled := false, processArgs := none, written := none }
  | some m =>
    if ¬ (0 < st.channels * floatWidth ∧
          chunk.length % (st.channels * floatWidth) = 0) then
      { result := .error .invalidInput, state := st
        initCalled := false, processArgs := none, written := none }
    else
      match st._resamplerPtr with
      | some _ => SpeexResampler.runNative m st chunk false
      | none =>
        let code := m.initCode st.channels st.inRate st.outRate st.quality
        if code ≠ 0 then
          { result := .error (.initError code), state := st
            initCalled := true, processArgs := none, written := none }
        else
          SpeexResampler.runNative m { st with _resamplerPtr := some 0 } chunk true

/-- State of a `SpeexResamplerTransform`: the stored constructor parameters,
the wrapped engine, and the alignment carry buffer (initially
`EMPTY_BUFFER`). -/
structure SpeexResamplerTransform where
  channels : Nat
  inRate : Int
  outRate : Int
  quality : Int
  resampler : SpeexResampler
  _alignementBuffer : Buffer
deriving Repr, DecidableEq

/-- The `SpeexResamplerTransform` constructor: stores the parameters
unchecked, builds the wrapped engine, and sets the carry buffer to empty. -/
def SpeexResamplerTransform.create (channels : Nat)
    (inRate outRate quality : Int) : SpeexResamplerTransform :=
  { channels := channels
    inRate := inRate
    outRate := outRate
    quality := quality
    resampler := SpeexResampler.create channels inRate outRate quality
    _alignementBuffer := [] }

/-- Step 1 of `_transform`: prepend the carry buffer to the incoming chunk
when it is non-empty (`Buffer.concat([this._alignementBuffer, chunk])`). -/
def combinedChunk (st : SpeexResamplerTransform) (chunk : Buffer) : Buffer :=
  if st._alignementBuffer.length > 0 then st._alignementBuffer ++ chunk
  else chunk

/-- Steps 2-3 of `_transform`, carry side: the trailing
`combined.length % (channels * Uint16Array.BYTES_PER_ELEMENT)` bytes become
the new carry when that count is non-zero, else the carry is left empty
(it was cleared in step 1). -/
def framingCarry (channels : Nat) (combined : Buffer) : Buffer :=
  let e := combined.length % (channels * uint16Width)
  if e ≠ 0 then combined.drop (combined.length - e) else []

/-- Steps 2-3 of `_transform`, processed side: the aligned prefix left after
slicing the extraneous bytes off. -/
def alignedPrefix (channels : Nat) (combined : Buffer) : Buffer :=
  let e := combined.length % (channels * uint16Width)
  if e ≠ 0 then combined.take (combined.length - e) else combined

/-- Result of one `_transform` push: the chunk handed to the engine, the
engine call it made, the value passed to `callback` (`.ok res` for
`callback(null, res)`, `.error e` for `callback(e)`), and the adapter state
after the push. -/
structure TransformResult where
  chunkToProcess : Buffer
  engine : ProcessResult
  result : Except SpeexError Buffer
  state : SpeexResamplerTransform
deriving Repr

/-- `SpeexResamplerTransform._transform`: concatenate the carry, split off
the extraneous tail as the new carry, hand the aligned prefix to
`processChunk` (unconditionally — there is no emptiness test in the
source), and report the engine's result or its error through the
callback. -/
def SpeexResamplerTransform._transform (mod : Option NativeBackend)
    (st : SpeexResamplerTransform) (chunk : Buffer) : TransformResult :=
  let combined := combinedChunk st chunk
  let ctp := alignedPrefix st.channels combined
  let carry := framingCarry st.channels combined
  let eng := SpeexResampler.processChunk mod st.resampler ctp
  { chunkToProcess := ctp
    engine := eng
    result := eng.result
    state := { st with resampler := eng.state, _alignementBuffer := carry } }

/-- A sequence of pushes: returns the final adapter state and, in order, the
chunks the adapter handed to the engine. -/
def pushAll (mod : Option NativeBackend) (st : SpeexResamplerTransform) :
    List Buffer → SpeexResamplerTransform × List Buffer
  | [] => (st, [])
  | c :: cs =>
    let r := SpeexResamplerTransform._transform mod st c
    let rest := pushAll mod r.state cs
    (rest.1, r.chunkToProcess :: rest.2)

/-- Concatenation of a list of buffers (`Buffer.concat` over a stream). -/
def joinBytes (l : List Buffer) : Buffer :=
  l.foldr (fun a b => a ++ b) []

/-- A trivial concrete backend for witnesses: init always succeeds and the
process call writes zero samples. -/
def modelBackend : NativeBackend :=
  { initCode := fun _ _ _ _ => 0
    processFloat := fun fs _ _ _ => (0, 0, fs, fun _ => 0) }

/-- A concrete backend for witnesses whose process call reports one written
sample per channel and fills the output region with byte `7`. -/
def oneSampleBackend : NativeBackend :=
  { initCode := fun _ _ _ _ => 0
    processFloat := fun fs _ _ _ => (0, 1, fs + 1, fun _ => 7) }

/-- A concrete backend for witnesses whose init call reports error code
`5`. -/
def badInitBackend : NativeBackend :=
  { initCode := fun _ _ _ _ => 5
    processFloat := fun fs _ _ _ => (0, 0, fs, fun _ => 0) }

theorem floatWidth_eq : floatWidth = 4 := rfl

theorem uint16Width_eq : uint16Width = 2 := rfl

@[simp]
theorem create_channels (c : Nat) (i o q : Int) :
    (SpeexResampler.create c i o q).channels = c := rfl

@[simp]
theorem create_inRate (c : Nat) (i o q : Int) :
    (SpeexResampler.create c i o q).inRate = i := rfl

@[simp]
theorem create_outRate (c : Nat) (i o q : Int) :
    (SpeexResampler.create c i o q).outRate = o := rfl

@[simp]
theorem create_quality (c : Nat) (i o q : Int) :
    (SpeexResampler.create c i o q).quality = q := rfl

@[simp]
theorem create_resamplerPtr (c : Nat) (i o q : Int) :
    (SpeexResampler.create c i o q)._resamplerPtr = none := rfl

@[simp]
theorem create_inBufferSize (c : Nat) (i o q : Int) :
    (SpeexResampler.create c i o q)._inBufferSize = -1 := rfl

@[simp]
theorem create_outBufferSize (c : Nat) (i o q : Int) :
    (SpeexResampler.create c i o q)._outBufferSize = -1 := rfl

/-- Reduction of `processChunk` once the module is present; proved by
unfolding the definition. -/
theorem processChunk_some (m : NativeBackend) (st : SpeexResampler)
    (chunk : Buffer) :
    SpeexResampler.processChunk (some m) st chunk =
      if ¬ (0 < st.channels * floatWidth ∧
            chunk.length % (st.channels * floatWidth) = 0) then
        { result := .error .invalidInput, state := st
          initCalled := false, processArgs := none, written := none }
      else
        match st._resamplerPtr with
        | some _ => SpeexResampler.runNative m st chunk false
        | none =>
          if m.initCode st.channels st.inRate st.outRate st.quality ≠ 0 then
            { result := .error (.initError
                (m.initCode st.channels st.inRate st.outRate st.quality))
              state := st
              initCalled := true, processArgs := none, written := none }
          else
            SpeexResampler.runNative m
              { st with _resamplerPtr := some 0 } chunk true := rfl

@[simp]
theorem growIn_channels (st : SpeexResampler) (len : Nat) :
    (growIn st len).channels = st.channels := by
  unfold growIn; split <;> rfl

@[simp]
theorem growIn_outBufferSize (st : SpeexResampler) (len : Nat) :
    (growIn st len)._outBufferSize = st._outBufferSize := by
  unfold growIn; split <;> rfl

@[simp]
theorem growIn_resamplerPtr (st : SpeexResampler) (len : Nat) :
    (growIn st len)._resamplerPtr = st._resamplerPtr := by
  unfold growIn; split <;> rfl

@[simp]
theorem growIn_inRate (st : SpeexResampler) (len : Nat) :
    (growIn st len).inRate = st.inRate := by
  unfold growIn; split <;> rfl

@[simp]
theorem growIn_outRate (st : SpeexResampler) (len : Nat) :
    (growIn st len).outRate = st.outRate := by
  unfold growIn; split <;> rfl

@[simp]
theorem growOut_channels (st : SpeexResampler) (len : Nat) :
    (growOut st len).channels = st.channels := by
  unfold growOut; split <;> rfl

@[simp]
theorem growOut_inBufferSize (st : SpeexResampler) (len : Nat) :
    (growOut st len)._inBufferSize = st._inBufferSize := by
  unfold growOut; split <;> rfl

@[simp]
theorem growOut_resamplerPtr (st : SpeexResampler) (len : Nat) :
    (growOut st len)._resamplerPtr = st._resamplerPtr := by
  unfold growOut; split <;> rfl

theorem growIn_le (st : SpeexResampler) (len : Nat) :
    st._inBufferSize ≤ (growIn st len)._inBufferSize := by
  unfold growIn; split <;> (try simp) <;> omega

theorem growIn_ge (st : SpeexResampler) (len : Nat) :
    (len : Int) ≤ (growIn st len)._inBufferSize := by
  unfold growIn; split <;> (try simp) <;> omega

theorem growIn_changed_iff (st : SpeexResampler) (len : Nat) :
    (growIn st len)._inBufferSize ≠ st._inBufferSize ↔
      st._inBufferSize < (len : Int) := by
  unfold growIn; split <;> (try simp) <;> omega

theorem growOut_le (st : SpeexResampler) (len : Nat) :
    st._outBufferSize ≤ (growOut st len)._outBufferSize := by
  unfold growOut; split <;> (try simp) <;> omega

theorem growOut_ge (st : SpeexResampler) (len : Nat) :
    outTarget st len ≤ (growOut st len)._outBufferSize := by
  unfold growOut; split <;> (try simp) <;> omega

theorem growOut_changed_iff (st : SpeexResampler) (len : Nat) :
    (growOut st len)._outBufferSize ≠ st._outBufferSize ↔
      st._outBufferSize < outTarget st len := by
  unfold growOut; split <;> (try simp) <;> omega

@[simp]
theorem outTarget_growIn (st : SpeexResampler) (len l2 : Nat) :
    outTarget (growIn st len) l2 = outTarget st l2 := by
  unfold outTarget; rw [growIn_outRate, growIn_inRate]

theorem runNative_state_inBufferSize (m : NativeBackend) (st : SpeexResampler)
    (chunk : Buffer) (d : Bool) :
    (SpeexResampler.runNative m st chunk d).state._inBufferSize
      = (growIn st chunk.length)._inBufferSize := by
  unfold SpeexResampler.runNative
  dsimp only
  split <;> simp

theorem runNative_state_outBufferSize (m : NativeBackend) (st : SpeexResampler)
    (chunk : Buffer) (d : Bool) :
    (SpeexResampler.runNative m st chunk d).state._outBufferSize
      = (growOut (growIn st chunk.length) chunk.length)._outBufferSize := by
  unfold SpeexResampler.runNative
  dsimp only
  split <;> simp

theorem runNative_initCalled (m : NativeBackend) (s : SpeexResampler)
    (chunk : Buffer) (d : Bool) :
    (SpeexResampler.runNative m s chunk d).initCalled = d := by
  unfold SpeexResampler.runNative
  dsimp only
  split <;> rfl

theorem runNative_processArgs (m : NativeBackend) (s : SpeexResampler)
    (chunk : Buffer) (d : Bool) :
    (SpeexResampler.runNative m s chunk d).processArgs
      = some (chunk.length / s.channels / floatWidth,
          (growOut (growIn s chunk.length) chunk.length)._outBufferSize.toNat
            / s.channels / floatWidth) := by
  unfold SpeexResampler.runNative
  dsimp only
  split <;> simp

theorem combinedChunk_eq (st : SpeexResamplerTransform) (chunk : Buffer) :
    combinedChunk st chunk = st._alignementBuffer ++ chunk := by
  unfold combinedChunk
  split
  · rfl
  · next h =>
    have : st._alignementBuffer = [] := by
      cases h2 : st._alignementBuffer with
      | nil => rfl
      | cons a l => rw [h2] at h; simp at h
    rw [this]; rfl

theorem alignedPrefix_append_framingCarry (c : Nat) (combined : Buffer) :
    alignedPrefix c combined ++ framingCarry c combined = combined := by
  unfold alignedPrefix framingCarry
  dsimp only
  split_ifs with h
  · exact List.take_append_drop _ _
  · simp

theorem framingCarry_length_lt (c : Nat) (combined : Buffer) (hc : 0 < c) :
    (framingCarry c combined).length < c * uint16Width := by
  have hm : 0 < c * uint16Width := by
    rw [show uint16Width = 2 from rfl]; omega
  unfold framingCarry
  dsimp only
  split_ifs with h
  · have hle : combined.length % (c * uint16Width) ≤ combined.length :=
      Nat.mod_le _ _
    have hlt : combined.length % (c * uint16Width) < c * uint16Width :=
      Nat.mod_lt _ hm
    simp only [List.length_drop]
    omega
  · simpa using hm

theorem subframe_step (st : SpeexResamplerTransform) (chunk : Buffer)
    (h : (st._alignementBuffer ++ chunk).length < st.channels * uint16Width) :
    alignedPrefix st.channels (combinedChunk st chunk) = [] ∧
    framingCarry st.channels (combinedChunk st chunk)
      = st._alignementBuffer ++ chunk := by
  rw [combinedChunk_eq]
  have he : (st._alignementBuffer ++ chunk).length % (st.channels * uint16Width)
      = (st._alignementBuffer ++ chunk).length := Nat.mod_eq_of_lt h
  unfold alignedPrefix framingCarry
  dsimp only
  rw [he]
  by_cases h0 : (st._alignementBuffer ++ chunk).length = 0
  · have hnil : st._alignementBuffer ++ chunk = [] := List.length_eq_zero.mp h0
    simp [hnil]
  · simp [h0, Nat.sub_self]

/-- C8: calling the engine's `processChunk` before the one-time wasm-module
initialization has completed (`speexModule` still unset) fails immediately
with the not-ready error, leaves the instance state untouched, records no
native call, and does so for every chunk — in particular for misaligned
ones, showing the readiness check precedes the alignment check and every
other step. -/
theorem processChunk_notReady_precedes_everything :
    ∀ (st : SpeexResampler) (chunk : Buffer),
      SpeexResampler.processChunk none st chunk =
        { result := .error .notReady, state := st
          initCalled := false, processArgs := none, written := none } := by
  intro st chunk
  rfl

/-- C3: with the module initialized, `processChunk` on a buffer whose length
fails the `chunk.length % (channels * Float32Array.BYTES_PER_ELEMENT)`
test throws the invalid-input error and returns the state completely
unchanged (no scratch resize, no native init, no native process call), so
any subsequent call behaves exactly as if the failed call had never
happened. -/
theorem processChunk_misaligned_rejects_without_mutation :
    ∀ (m : NativeBackend) (st : SpeexResampler) (chunk : Buffer),
      ¬ (0 < st.channels * floatWidth ∧
         chunk.length % (st.channels * floatWidth) = 0) →
      SpeexResampler.processChunk (some m) st chunk =
          { result := .error .invalidInput, state := st
            initCalled := false, processArgs := none, written := none } ∧
      ∀ (chunk2 : Buffer),
        SpeexResampler.processChunk (some m)
            (SpeexResampler.processChunk (some m) st chunk).state chunk2 =
          SpeexResampler.processChunk (some m) st chunk2 := by
  intro m st chunk h
  have h1 : SpeexResampler.processChunk (some m) st chunk =
      { result := .error .invalidInput, state := st
        initCalled := false, processArgs := none, written := none } := by
    rw [processChunk_some, if_pos h]
  exact ⟨h1, fun chunk2 => by rw [h1]⟩

/-- C3 witness: a 3-byte chunk (`channels × sampleByteWidth − 1` bytes for
one float32 channel) is rejected without mutation. -/
theorem processChunk_misaligned_rejects_without_mutation_witness :
    SpeexResampler.processChunk (some modelBackend)
        (SpeexResampler.create 1 8000 8000 7) [0, 0, 0] =
      { result := .error .invalidInput
        state := SpeexResampler.create 1 8000 8000 7
        initCalled := false, processArgs := none, written := none } :=
  (processChunk_misaligned_rejects_without_mutation modelBackend
    (SpeexResampler.create 1 8000 8000 7) [0, 0, 0] (by decide)).1

/-- C9: both constructors are total and store their four parameters without
any validation (no sentinel other than the fixed initial pointer/size
fields), and a bad configuration only surfaces on the first `processChunk`
call, as the error code the lazily-invoked `_speex_resampler_init`
reports. -/
theorem constructors_store_config_unvalidated :
    (∀ (c : Nat) (i o q : Int),
        SpeexResampler.create c i o q =
          { channels := c, inRate := i, outRate := o, quality := q
            _resamplerPtr := none, _inBufferSize := -1, _outBufferSize := -1 } ∧
        SpeexResamplerTransform.create c i o q =
          { channels := c, inRate := i, outRate := o, quality := q
            resampler := SpeexResampler.create c i o q
            _alignementBuffer := [] }) ∧
    (∀ (m : NativeBackend) (c : Nat) (i o q : Int) (chunk : Buffer),
        0 < c →
        chunk.length % (c * floatWidth) = 0 →
        m.initCode c i o q ≠ 0 →
        (SpeexResampler.processChunk (some m)
            (SpeexResampler.create c i o q) chunk).result =
          .error (.initError (m.initCode c i o q)) ∧
        (SpeexResampler.processChunk (some m)
            (SpeexResampler.create c i o q) chunk).initCalled = true) := by
  constructor
  · intro c i o q
    exact ⟨rfl, rfl⟩
  · intro m c i o q chunk hc hal hcode
    have hpos : 0 < c * floatWidth := by
      rw [floatWidth_eq]; omega
    rw [processChunk_some]
    simp only [create_channels, create_inRate, create_outRate, create_quality,
      create_resamplerPtr]
    rw [if_neg (not_not_intro ⟨hpos, hal⟩)]
    rw [if_pos hcode]
    exact ⟨rfl, rfl⟩

/-- C9 witness: out-of-range parameters (negative input rate, quality `0`)
are accepted by the constructor and only rejected by the native init call
on the first `processChunk`, whose error code (`5` for this backend) is
surfaced. -/
theorem constructors_store_config_unvalidated_witness :
    ((SpeexResampler.create 1 (-48000) 16000 0 =
        { channels := 1, inRate := -48000, outRate := 16000, quality := 0
          _resamplerPtr := none, _inBufferSize := -1, _outBufferSize := -1 } ∧
      SpeexResamplerTransform.create 1 (-48000) 16000 0 =
        { channels := 1, inRate := -48000, outRate := 16000, quality := 0
          resampler := SpeexResampler.create 1 (-48000) 16000 0
          _alignementBuffer := [] }) ∧
     ((SpeexResampler.processChunk (some badInitBackend)
          (SpeexResampler.create 1 (-48000) 16000 0) []).result =
        .error (.initError (badInitBackend.initCode 1 (-48000) 16000 0)) ∧
      (SpeexResampler.processChunk (some badInitBackend)
          (SpeexResampler.create 1 (-48000) 16000 0) []).initCalled = true)) :=
  ⟨constructors_store_config_unvalidated.1 1 (-48000) 16000 0,
   constructors_store_config_unvalidated.2 badInitBackend 1 (-48000) 16000 0 []
     (by decide) (by decide) (by decide)⟩

/-- C1 (code-bug exhibit): the streaming adapter aligns only to
`channels * Uint16Array.BYTES_PER_ELEMENT` (2 bytes per sample), while this
build's engine checks `channels * Float32Array.BYTES_PER_ELEMENT` (4 bytes
per sample).  Pushing 2 bytes into a fresh one-channel transform makes the
adapter hand the engine a 2-byte chunk that fails the engine's alignment
check, so the misalignment error the spec says can never come through the
adapter is raised on this push. -/
theorem adapter_alignment_bug_reaches_engine :
    (SpeexResamplerTransform._transform (some modelBackend)
        (SpeexResamplerTransform.create 1 48000 48000 7) [0, 0]).chunkToProcess
      = [0, 0] ∧
    ([0, 0] : Buffer).length %
        ((SpeexResamplerTransform.create 1 48000 48000 7).channels * floatWidth)
      ≠ 0 ∧
    (SpeexResamplerTransform._transform (some modelBackend)
        (SpeexResamplerTransform.create 1 48000 48000 7) [0, 0]).result
      = .error .invalidInput :=
  ⟨rfl, by decide, rfl⟩

/-- C4: the adapter's `_transform` catches whatever `processChunk` throws
and reports exactly that error through the callback, untranslated, and the
carry buffer computed during the framing step of the same push is kept in
the new adapter state (never rolled back on engine failure). -/
theorem transform_propagates_engine_error_and_retains_carry :
    ∀ (mod : Option NativeBackend) (st : SpeexResamplerTransform)
      (chunk : Buffer) (e : SpeexError),
      (SpeexResampler.processChunk mod st.resampler
          (alignedPrefix st.channels (combinedChunk st chunk))).result
        = .error e →
      (SpeexResamplerTransform._transform mod st chunk).result = .error e ∧
      (SpeexResamplerTransform._transform mod st chunk).state._alignementBuffer
        = framingCarry st.channels (combinedChunk st chunk) := by
  intro mod st chunk e h
  exact ⟨h, rfl⟩

/-- C4 witness: pushing 3 bytes before the wasm module is ready makes the
engine throw the not-ready error on the 2-byte aligned prefix; the adapter
reports that very error and keeps the 1-byte carry it framed. -/
theorem transform_propagates_engine_error_and_retains_carry_witness :
    (SpeexResamplerTransform._transform none
        (SpeexResamplerTransform.create 1 1 1 7) [0, 0, 5]).result
      = .error .notReady ∧
    (SpeexResamplerTransform._transform none
        (SpeexResamplerTransform.create 1 1 1 7) [0, 0, 5]).state._alignementBuffer
      = framingCarry (SpeexResamplerTransform.create 1 1 1 7).channels
          (combinedChunk (SpeexResamplerTransform.create 1 1 1 7) [0, 0, 5]) :=
  transform_propagates_engine_error_and_retains_carry none
    (SpeexResamplerTransform.create 1 1 1 7) [0, 0, 5] .notReady rfl

/-- C2 counterexample: a push of one sub-frame byte into a fresh
one-channel transform does move the byte into the carry buffer and does
return an empty output, but — contrary to the claim — the engine's
`processChunk` IS invoked (on the zero-length aligned prefix): the native
init runs, the native process call is made with per-channel counts
`(0, 0)`, and the engine state is mutated (resampler created, input
scratch size set to `0` from its initial `-1`). -/
theorem subframe_push_invokes_engine :
    (SpeexResamplerTransform._transform (some modelBackend)
        (SpeexResamplerTransform.create 1 1 1 7) [5]).state._alignementBuffer
      = [5] ∧
    (SpeexResamplerTransform._transform (some modelBackend)
        (SpeexResamplerTransform.create 1 1 1 7) [5]).engine.initCalled = true ∧
    (SpeexResamplerTransform._transform (some modelBackend)
        (SpeexResamplerTransform.create 1 1 1 7) [5]).engine.processArgs
      = some (0, 0) ∧
    (SpeexResamplerTransform._transform (some modelBackend)
        (SpeexResamplerTransform.create 1 1 1 7) [5]).state.resampler._resamplerPtr
      = some 0 ∧
    (SpeexResamplerTransform._transform (some modelBackend)
        (SpeexResamplerTransform.create 1 1 1 7) [5]).state.resampler._inBufferSize
      = 0 ∧
    (SpeexResamplerTransform._transform (some modelBackend)
        (SpeexResamplerTransform.create 1 1 1 7) [5]).result = .ok [] :=
  ⟨rfl, rfl, rfl, rfl, rfl, rfl⟩

/-- C2 amended: a push whose combined input (carry plus chunk) holds fewer
bytes than the adapter's frame unit (`channels × 2` bytes) moves all of
those bytes into the carry buffer, but the engine is not skipped: the
adapter still invokes `processChunk` on the zero-length aligned prefix and
returns exactly that call's result (empty only when the native primitive
reports zero written samples). -/
theorem subframe_push_carries_all_and_runs_engine_on_empty :
    ∀ (mod : Option NativeBackend) (st : SpeexResamplerTransform)
      (chunk : Buffer),
      (st._alignementBuffer ++ chunk).length < st.channels * uint16Width →
      (SpeexResamplerTransform._transform mod st chunk).chunkToProcess = [] ∧
      (SpeexResamplerTransform._transform mod st chunk).state._alignementBuffer
        = st._alignementBuffer ++ chunk ∧
      (SpeexResamplerTransform._transform mod st chunk).engine
        = SpeexResampler.processChunk mod st.resampler [] ∧
      (SpeexResamplerTransform._transform mod st chunk).result
        = (SpeexResampler.processChunk mod st.resampler []).result := by
  intro mod st chunk h
  obtain ⟨hpre, hcar⟩ := subframe_step st chunk h
  unfold SpeexResamplerTransform._transform
  dsimp only
  rw [hpre, hcar]
  exact ⟨rfl, rfl, rfl, rfl⟩

/-- C2 amended witness: one byte pushed into a fresh one-channel transform
before the module is ready is fully carried and the engine is still run on
the empty chunk (failing with the not-ready error, which the push
returns). -/
theorem subframe_push_carries_all_and_runs_engine_on_empty_witness :
    (SpeexResamplerTransform._transform none
        (SpeexResamplerTransform.create 1 1 1 7) [9]).chunkToProcess = [] ∧
    (SpeexResamplerTransform._transform none
        (SpeexResamplerTransform.create 1 1 1 7) [9]).state._alignementBuffer
      = (SpeexResamplerTransform.create 1 1 1 7)._alignementBuffer ++ [9] ∧
    (SpeexResamplerTransform._transform none
        (SpeexResamplerTransform.create 1 1 1 7) [9]).engine
      = SpeexResampler.processChunk none
          (SpeexResamplerTransform.create 1 1 1 7).resampler [] ∧
    (SpeexResamplerTransform._transform none
        (SpeexResamplerTransform.create 1 1 1 7) [9]).result
      = (SpeexResampler.processChunk none
          (SpeexResamplerTransform.create 1 1 1 7).resampler []).result :=
  subframe_push_carries_all_and_runs_engine_on_empty none
    (SpeexResamplerTransform.create 1 1 1 7) [9] (by decide)

/-- C10: a zero-length buffer passes the alignment check and is not
short-circuited: on a first call (module ready, native init succeeding) the
engine still lazily creates the native resampler and invokes the native
process call with a per-channel input sample count of `0`; likewise the
adapter hands a fully-carried push to the engine as a zero-length call
rather than skipping it. -/
theorem zero_length_chunk_still_processed :
    (∀ (m : NativeBackend) (st : SpeexResampler),
        0 < st.channels →
        st._resamplerPtr = none →
        m.initCode st.channels st.inRate st.outRate st.quality = 0 →
        (SpeexResampler.processChunk (some m) st []).initCalled = true ∧
        ∃ cap, (SpeexResampler.processChunk (some m) st []).processArgs
          = some (0, cap)) ∧
    (∀ (mod : Option NativeBackend) (st : SpeexResamplerTransform)
        (chunk : Buffer),
        (st._alignementBuffer ++ chunk).length < st.channels * uint16Width →
        (SpeexResamplerTransform._transform mod st chunk).chunkToProcess = [] ∧
        (SpeexResamplerTransform._transform mod st chunk).engine
          = SpeexResampler.processChunk mod st.resampler []) := by
  constructor
  · intro m st hc hptr hcode
    have hpos : 0 < st.channels * floatWidth := by
      rw [floatWidth_eq]; omega
    rw [processChunk_some]
    rw [if_neg (not_not_intro ⟨hpos, by simp⟩)]
    rw [hptr]
    rw [if_neg (not_not_intro hcode)]
    constructor
    · rw [runNative_initCalled]
    · refine ⟨(growOut (growIn { st with _resamplerPtr := some 0 }
          ([] : Buffer).length) ([] : Buffer).length)._outBufferSize.toNat
          / ({ st with _resamplerPtr := some 0 } : SpeexResampler).channels
          / floatWidth, ?_⟩
      rw [runNative_processArgs]
      simp
  · intro mod st chunk h
    obtain ⟨hpre, hcar⟩ := subframe_step st chunk h
    unfold SpeexResamplerTransform._transform
    dsimp only
    rw [hpre]
    exact ⟨rfl, rfl⟩

/-- C10 witness: a fresh one-channel engine with a succeeding backend runs
init and the native call on the empty chunk; a fresh one-channel transform
given a single byte forwards the empty aligned prefix to the engine. -/
theorem zero_length_chunk_still_processed_witness :
    ((SpeexResampler.processChunk (some modelBackend)
         (SpeexResampler.create 1 1 1 7) []).initCalled = true ∧
     ∃ cap, (SpeexResampler.processChunk (some modelBackend)
         (SpeexResampler.create 1 1 1 7) []).processArgs = some (0, cap)) ∧
    ((SpeexResamplerTransform._transform (some modelBackend)
         (SpeexResamplerTransform.create 1 1 1 7) [9]).chunkToProcess = [] ∧
     (SpeexResamplerTransform._transform (some modelBackend)
         (SpeexResamplerTransform.create 1 1 1 7) [9]).engine
       = SpeexResampler.processChunk (some modelBackend)
           (SpeexResamplerTransform.create 1 1 1 7).resampler []) :=
  ⟨zero_length_chunk_still_processed.1 modelBackend
      (SpeexResampler.create 1 1 1 7) (by decide) rfl rfl,
   zero_length_chunk_still_processed.2 (some modelBackend)
      (SpeexResamplerTransform.create 1 1 1 7) [9] (by decide)⟩

/-- C7: whenever `processChunk` succeeds, the buffer it returns holds
exactly `writtenSamplesPerChannel × channels ×
Float32Array.BYTES_PER_ELEMENT` bytes, where `writtenSamplesPerChannel` is
the count the native process call reported back through `outLengthPtr`
(recorded in the call trace).  In this embedding the buffer is built as a
snapshot of the output scratch region at return time — the value-level
rendering of the source's copy-not-view `HEAPU8.slice`. -/
theorem processChunk_success_output_length :
    ∀ (mod : Option NativeBackend) (st : SpeexResampler) (chunk buf : Buffer),
      (SpeexResampler.processChunk mod st chunk).result = .ok buf →
      ∃ w, (SpeexResampler.processChunk mod st chunk).written = some w ∧
        buf.length = w * st.channels * floatWidth := by
  intro mod st chunk buf h
  match mod with
  | none => exact absurd h (by simp [SpeexResampler.processChunk])
  | some m =>
    rw [processChunk_some] at h ⊢
    by_cases hal : ¬ (0 < st.channels * floatWidth ∧
        chunk.length % (st.channels * floatWidth) = 0)
    · rw [if_pos hal] at h
      exact absurd h (by simp)
    · rw [if_neg hal] at h ⊢
      have main : ∀ (s : SpeexResampler) (d : Bool),
          s.channels = st.channels →
          (SpeexResampler.runNative m s chunk d).result = .ok buf →
          ∃ w, (SpeexResampler.runNative m s chunk d).written = some w ∧
            buf.length = w * st.channels * floatWidth := by
        intro s d hch hr
        unfold SpeexResampler.runNative at hr ⊢
        dsimp only at hr ⊢
        split at hr
        · exact absurd hr (by simp)
        · refine ⟨(m.processFloat ((growOut (growIn s chunk.length)
            chunk.length)._resamplerPtr.getD 0) chunk
            (chunk.length / (growOut (growIn s chunk.length) chunk.length).channels / floatWidth)
            ((growOut (growIn s chunk.length) chunk.length)._outBufferSize.toNat /
              (growOut (growIn s chunk.length) chunk.length).channels / floatWidth)).2.1,
            ?_, ?_⟩
          · rw [if_neg (by assumption)]
          · simp only [Except.ok.injEq] at hr
            rw [← hr]
            simp [hch]
      cases hptr : st._resamplerPtr with
      | some fs =>
        rw [hptr] at h
        dsimp only at h ⊢
        exact main st false rfl h
      | none =>
        rw [hptr] at h
        dsimp only at h ⊢
        by_cases hcode : m.initCode st.channels st.inRate st.outRate st.quality ≠ 0
        · rw [if_pos hcode] at h
          simp at h
        · rw [if_neg hcode] at h ⊢
          exact main { st with _resamplerPtr := some 0 } true rfl h

/-- C7 witness: with a backend reporting one written sample per channel,
a one-channel engine returns a 4-byte buffer (`1 × 1 × 4`). -/
theorem processChunk_success_output_length_witness :
    ∃ w, (SpeexResampler.processChunk (some oneSampleBackend)
        (SpeexResampler.create 1 1 1 7) [0, 0, 0, 0]).written = some w ∧
      ([7, 7, 7, 7] : Buffer).length
        = w * (SpeexResampler.create 1 1 1 7).channels * floatWidth :=
  processChunk_success_output_length (some oneSampleBackend)
    (SpeexResampler.create 1 1 1 7) [0, 0, 0, 0] [7, 7, 7, 7] rfl

@[simp]
theorem transformCreate_channels (c : Nat) (i o q : Int) :
    (SpeexResamplerTransform.create c i o q).channels = c := rfl

@[simp]
theorem transformCreate_alignementBuffer (c : Nat) (i o q : Int) :
    (SpeexResamplerTransform.create c i o q)._alignementBuffer = [] := rfl

@[simp]
theorem joinBytes_nil : joinBytes [] = [] := rfl

@[simp]
theorem joinBytes_cons (a : Buffer) (l : List Buffer) :
    joinBytes (a :: l) = a ++ joinBytes l := rfl

theorem transform_chunkToProcess_append_carry (mod : Option NativeBackend)
    (st : SpeexResamplerTransform) (chunk : Buffer) :
    (SpeexResamplerTransform._transform mod st chunk).chunkToProcess
        ++ (SpeexResamplerTransform._transform mod st chunk).state._alignementBuffer
      = st._alignementBuffer ++ chunk := by
  unfold SpeexResamplerTransform._transform
  dsimp only
  rw [← combinedChunk_eq]
  exact alignedPrefix_append_framingCarry _ _

theorem transform_state_channels (mod : Option NativeBackend)
    (st : SpeexResamplerTransform) (chunk : Buffer) :
    (SpeexResamplerTransform._transform mod st chunk).state.channels
      = st.channels := rfl

theorem transform_state_carry (mod : Option NativeBackend)
    (st : SpeexResamplerTransform) (chunk : Buffer) :
    (SpeexResamplerTransform._transform mod st chunk).state._alignementBuffer
      = framingCarry st.channels (combinedChunk st chunk) := rfl

theorem pushAll_bytes (mod : Option NativeBackend) (chunks : List Buffer) :
    ∀ st, joinBytes (pushAll mod st chunks).2
        ++ (pushAll mod st chunks).1._alignementBuffer
      = st._alignementBuffer ++ joinBytes chunks := by
  induction chunks with
  | nil =>
    intro st
    simp [pushAll]
  | cons c cs ih =>
    intro st
    have hstep := transform_chunkToProcess_append_carry mod st c
    have ihs := ih (SpeexResamplerTransform._transform mod st c).state
    simp only [pushAll]
    rw [joinBytes_cons, List.append_assoc, ihs, ← List.append_assoc, hstep,
      List.append_assoc, joinBytes_cons]

theorem pushAll_channels (mod : Option NativeBackend) (chunks : List Buffer) :
    ∀ st, (pushAll mod st chunks).1.channels = st.channels := by
  induction chunks with
  | nil => intro st; rfl
  | cons c cs ih =>
    intro st
    simp only [pushAll]
    rw [ih, transform_state_channels]

theorem pushAll_carry_bound (mod : Option NativeBackend) (chunks : List Buffer) :
    ∀ st, 0 < st.channels →
      st._alignementBuffer.length < st.channels * uint16Width →
      (pushAll mod st chunks).1._alignementBuffer.length
        < st.channels * uint16Width := by
  induction chunks with
  | nil =>
    intro st _ hc
    simpa [pushAll] using hc
  | cons c cs ih =>
    intro st h0 hc
    simp only [pushAll]
    have hch : (SpeexResamplerTransform._transform mod st c).state.channels
        = st.channels := transform_state_channels mod st c
    have hnew : (SpeexResamplerTransform._transform mod st c).state._alignementBuffer.length
        < st.channels * uint16Width := by
      rw [transform_state_carry]
      exact framingCarry_length_lt _ _ h0
    have := ih (SpeexResamplerTransform._transform mod st c).state
      (by rw [hch]; exact h0) (by rw [hch]; exact hnew)
    rwa [hch] at this

/-- C5: over any sequence of pushes into a fresh transform, concatenating
the chunks the adapter handed to the engine and appending the final carry
buffer reconstructs the concatenated input byte-for-byte (no byte lost,
duplicated or reordered), and the withheld trailing bytes — exactly the
final carry — number at most `channels × sampleByteWidth − 1` (indeed
strictly fewer than the adapter's `channels × 2` frame unit). -/
theorem streaming_loses_no_bytes :
    ∀ (mod : Option NativeBackend) (c : Nat) (i o q : Int)
      (chunks : List Buffer),
      1 ≤ c →
      joinBytes (pushAll mod (SpeexResamplerTransform.create c i o q) chunks).2
          ++ (pushAll mod (SpeexResamplerTransform.create c i o q)
              chunks).1._alignementBuffer
        = joinBytes chunks ∧
      (pushAll mod (SpeexResamplerTransform.create c i o q)
          chunks).1._alignementBuffer.length < c * uint16Width ∧
      (pushAll mod (SpeexResamplerTransform.create c i o q)
          chunks).1._alignementBuffer.length ≤ c * floatWidth - 1 := by
  intro mod c i o q chunks hc
  have h1 := pushAll_bytes mod chunks (SpeexResamplerTransform.create c i o q)
  rw [transformCreate_alignementBuffer, List.nil_append] at h1
  have h2 := pushAll_carry_bound mod chunks (SpeexResamplerTransform.create c i o q)
    (by rw [transformCreate_channels]; omega)
    (by rw [transformCreate_channels, transformCreate_alignementBuffer,
          uint16Width_eq]; simp; omega)
  rw [transformCreate_channels] at h2
  refine ⟨h1, h2, ?_⟩
  rw [uint16Width_eq] at h2
  rw [floatWidth_eq]
  omega

/-- C5 witness: three pushes of 1, 2 and 1 bytes into a one-channel
transform; the adapter delegates `[]`, `[1, 2]`, `[3, 4]` and the final
carry is empty, reconstructing `[1, 2, 3, 4]`. -/
theorem streaming_loses_no_bytes_witness :
    joinBytes (pushAll none (SpeexResamplerTransform.create 1 1 1 7)
          [[1], [2, 3], [4]]).2
        ++ (pushAll none (SpeexResamplerTransform.create 1 1 1 7)
            [[1], [2, 3], [4]]).1._alignementBuffer
      = joinBytes [[1], [2, 3], [4]] ∧
    (pushAll none (SpeexResamplerTransform.create 1 1 1 7)
        [[1], [2, 3], [4]]).1._alignementBuffer.length < 1 * uint16Width ∧
    (pushAll none (SpeexResamplerTransform.create 1 1 1 7)
        [[1], [2, 3], [4]]).1._alignementBuffer.length ≤ 1 * floatWidth - 1 :=
  streaming_loses_no_bytes none 1 1 1 7 [[1], [2, 3], [4]] (by decide)

/-- C6: scratch capacities are grow-only.  First conjunct: on every call
(any module state, any chunk, any outcome) neither tracked scratch size
decreases, so capacities are non-decreasing across any sequence of calls
however the input sizes oscillate.  Second conjunct: when an aligned call
gets past the lazy init, the input scratch size ends at least
`chunk.length`, the output scratch size at least the code's
`outBufferLengthTarget`, and either size changes exactly when the previous
size was strictly below the needed one (reallocation only on true
growth).  Third conjunct: for a positive input rate the code's target is
the true ceiling of `chunk.length × outRate / inRate`. -/
theorem scratch_capacity_growth :
    (∀ (mod : Option NativeBackend) (st : SpeexResampler) (chunk : Buffer),
        st._inBufferSize
          ≤ (SpeexResampler.processChunk mod st chunk).state._inBufferSize ∧
        st._outBufferSize
          ≤ (SpeexResampler.processChunk mod st chunk).state._outBufferSize) ∧
    (∀ (m : NativeBackend) (st : SpeexResampler) (chunk : Buffer),
        0 < st.channels →
        chunk.length % (st.channels * floatWidth) = 0 →
        (st._resamplerPtr = none →
          m.initCode st.channels st.inRate st.outRate st.quality = 0) →
        ((chunk.length : Int)
            ≤ (SpeexResampler.processChunk (some m) st chunk).state._inBufferSize ∧
         outTarget st chunk.length
            ≤ (SpeexResampler.processChunk (some m) st chunk).state._outBufferSize ∧
         ((SpeexResampler.processChunk (some m) st chunk).state._inBufferSize
              ≠ st._inBufferSize ↔
            st._inBufferSize < (chunk.length : Int)) ∧
         ((SpeexResampler.processChunk (some m) st chunk).state._outBufferSize
              ≠ st._outBufferSize ↔
            st._outBufferSize < outTarget st chunk.length))) ∧
    (∀ (a b : Int), 0 < b →
        a ≤ jsCeilDiv a b * b ∧ jsCeilDiv a b * b < a + b) := by
  refine ⟨?_, ?_, ?_⟩
  · intro mod st chunk
    match mod with
    | none => exact ⟨le_refl _, le_refl _⟩
    | some m =>
      rw [processChunk_some]
      by_cases hal : ¬ (0 < st.channels * floatWidth ∧
          chunk.length % (st.channels * floatWidth) = 0)
      · rw [if_pos hal]
        exact ⟨le_refl _, le_refl _⟩
      · rw [if_neg hal]
        cases hptr : st._resamplerPtr with
        | some fs =>
          dsimp only
          constructor
          · rw [runNative_state_inBufferSize]
            exact growIn_le st chunk.length
          · rw [runNative_state_outBufferSize]
            have h := growOut_le (growIn st chunk.length) chunk.length
            simpa using h
        | none =>
          dsimp only
          by_cases hcode : m.initCode st.channels st.inRate st.outRate st.quality ≠ 0
          · rw [if_pos hcode]
            exact ⟨le_refl _, le_refl _⟩
          · rw [if_neg hcode]
            constructor
            · rw [runNative_state_inBufferSize]
              exact growIn_le { st with _resamplerPtr := some 0 } chunk.length
            · rw [runNative_state_outBufferSize]
              have h := growOut_le
                (growIn { st with _resamplerPtr := some 0 } chunk.length) chunk.length
              simpa using h
  · intro m st chunk hc hal hinit
    have hpos : 0 < st.channels * floatWidth := by
      rw [floatWidth_eq]; omega
    rw [processChunk_some]
    rw [if_neg (not_not_intro ⟨hpos, hal⟩)]
    cases hptr : st._resamplerPtr with
    | some fs =>
      dsimp only
      refine ⟨?_, ?_, ?_, ?_⟩
      · rw [runNative_state_inBufferSize]
        exact growIn_ge st chunk.length
      · rw [runNative_state_outBufferSize]
        have h := growOut_ge (growIn st chunk.length) chunk.length
        simpa using h
      · rw [runNative_state_inBufferSize]
        exact growIn_changed_iff st chunk.length
      · rw [runNative_state_outBufferSize]
        have h := growOut_changed_iff (growIn st chunk.length) chunk.length
        simpa using h
    | none =>
      dsimp only
      rw [if_neg (not_not_intro (hinit hptr))]
      refine ⟨?_, ?_, ?_, ?_⟩
      · rw [runNative_state_inBufferSize]
        exact growIn_ge { st with _resamplerPtr := some 0 } chunk.length
      · rw [runNative_state_outBufferSize]
        have h := growOut_ge
          (growIn { st with _resamplerPtr := some 0 } chunk.length) chunk.length
        simpa using h
      · rw [runNative_state_inBufferSize]
        exact growIn_changed_iff { st with _resamplerPtr := some 0 } chunk.length
      · rw [runNative_state_outBufferSize]
        have h := growOut_changed_iff
          (growIn { st with _resamplerPtr := some 0 } chunk.length) chunk.length
        simpa using h
  · intro a b hb
    unfold jsCeilDiv
    rw [if_neg (by omega)]
    rw [Int.fdiv_eq_ediv _ (le_of_lt hb)]
    have h1 := Int.ediv_add_emod (-a) b
    have h2 := Int.emod_nonneg (-a) (by omega : b ≠ 0)
    have h3 := Int.emod_lt_of_pos (-a) hb
    have hr : -((-a) / b) * b = -(b * ((-a) / b)) := by ring
    rw [hr]
    constructor
    · linarith
    · linarith

/-- C6 witness: a fresh one-channel engine processing 4 aligned bytes at
unit rates ends with both scratch sizes at 4 ≥ the needs, both changed from
their initial `-1`, and `jsCeilDiv 8 3` behaves as the ceiling of `8/3`. -/
theorem scratch_capacity_growth_witness :
    ((SpeexResampler.create 1 1 1 7)._inBufferSize
        ≤ (SpeexResampler.processChunk (some modelBackend)
            (SpeexResampler.create 1 1 1 7) [0, 0, 0, 0]).state._inBufferSize ∧
     (SpeexResampler.create 1 1 1 7)._outBufferSize
        ≤ (SpeexResampler.processChunk (some modelBackend)
            (SpeexResampler.create 1 1 1 7) [0, 0, 0, 0]).state._outBufferSize) ∧
    (((4 : Nat) : Int)
        ≤ (SpeexResampler.processChunk (some modelBackend)
            (SpeexResampler.create 1 1 1 7) [0, 0, 0, 0]).state._inBufferSize ∧
     outTarget (SpeexResampler.create 1 1 1 7) 4
        ≤ (SpeexResampler.processChunk (some modelBackend)
            (SpeexResampler.create 1 1 1 7) [0, 0, 0, 0]).state._outBufferSize ∧
     ((SpeexResampler.processChunk (some modelBackend)
            (SpeexResampler.create 1 1 1 7) [0, 0, 0, 0]).state._inBufferSize
          ≠ (SpeexResampler.create 1 1 1 7)._inBufferSize ↔
        (SpeexResampler.create 1 1 1 7)._inBufferSize < ((4 : Nat) : Int)) ∧
     ((SpeexResampler.processChunk (some modelBackend)
            (SpeexResampler.create 1 1 1 7) [0, 0, 0, 0]).state._outBufferSize
          ≠ (SpeexResampler.create 1 1 1 7)._outBufferSize ↔
        (SpeexResampler.create 1 1 1 7)._outBufferSize
          < outTarget (SpeexResampler.create 1 1 1 7) 4)) ∧
    ((8 : Int) ≤ jsCeilDiv 8 3 * 3 ∧ jsCeilDiv 8 3 * 3 < 8 + 3) :=
  ⟨scratch_capacity_growth.1 (some modelBackend)
      (SpeexResampler.create 1 1 1 7) [0, 0, 0, 0],
   scratch_capacity_growth.2.1 modelBackend (SpeexResampler.create 1 1 1 7)
      [0, 0, 0, 0] (by decide) (by decide) (fun _ => rfl),
   scratch_capacity_growth.2.2 8 3 (by decide)⟩

end Speex
